import Mathlib

/-!
Verification of the sandboxed Wasm execution service
(`extension-runtime-service/src/main.rs`) against its specification.

The definitions below are a shallow embedding of the Rust source: each
`def` mirrors one function (or one inlined computation) of
`extension-runtime-service/src/main.rs`, with machine integers modelled as
`Nat`/`Int` plus explicit `% 2 ^ w` where overflow matters, fallible code
returning `Except String`, and the Wasm engine's primitives (the actual
function call, the filesystem) passed in as explicit oracle arguments.
-/

deriving instance DecidableEq for Except

namespace ExtRuntime

/-! ## Path resolution (`execute_plugin_safe`, lines 192-204)

A Unix path is modelled as an absolute flag plus a list of segments.
`Path::new(base).join(rel)` replaces the whole path when `rel` is absolute.
`canonicalize` is modelled for a symlink-free filesystem in which the joined
path exists: it lexically resolves `.` and `..` segments against an absolute
base (`..` at the root stays at the root, as on Linux). -/

structure UnixPath where
  absolute : Bool
  segs : List String
deriving DecidableEq, Repr

/-- One step of canonical resolution: `.` is dropped, `..` removes the last
accumulated segment (at the root it is a no-op), anything else is kept. -/
def canonStep (acc : List String) (s : String) : List String :=
  if s = "." then acc
  else if s = ".." then acc.dropLast
  else acc ++ [s]

/-- Canonical segment list of an absolute path, resolving `.` and `..`. -/
def canonSegs (segs : List String) : List String :=
  segs.foldl canonStep []

/-- `Path::to_str` rendering of an absolute canonical path: `/` followed by
the segments joined with `/`; the root renders as `/`. -/
def renderPath (segs : List String) : String :=
  String.append "/" (String.intercalate "/" segs)

/-- `true` when the character list contains two consecutive dots. -/
def hasConsecDots : List Char → Bool
  | [] => false
  | [_] => false
  | a :: b :: rest => (a = '.' && b = '.') || hasConsecDots (b :: rest)

/-- The source's traversal check: `module_path.to_str().unwrap().contains("..")`,
a substring test on the rendered canonical path. -/
def strContainsDotDot (s : String) : Bool :=
  hasConsecDots s.data

/-- Path resolution of `execute_plugin_safe`:
`Path::new(&base_dir).join(&req.module_path).canonicalize()` followed by the
`contains("..")` rejection. `base_segs` are the segments of the absolute
`base_dir`. Returns the canonical segments of the path that will be read.
Modelled for the case where the joined path exists and involves no symlinks
(so `canonicalize` succeeds and is lexical resolution). -/
def resolve_module_path (base_segs : List String) (module_path : UnixPath) :
    Except String (List String) :=
  let joined := if module_path.absolute then module_path.segs
                else base_segs ++ module_path.segs
  let canon := canonSegs joined
  if strContainsDotDot (renderPath canon) then
    Except.error "Directory traversal detected"
  else
    Except.ok canon

/-- Claim-side containment predicate (from the spec's step 2, absent from the
source): the canonical path stays under `base_dir`, i.e. the base segments
are an initial segment of the canonical segments. -/
def pathInBase (base canon : List String) : Bool :=
  base.isPrefixOf canon

/-! ## Import validation (`validate_module_safety`, lines 274-290) -/

structure WasmImport where
  module : String
  name : String
deriving DecidableEq, Repr

/-- `validate_module_safety`: iterate the module's imports; WASI imports are
allowed wholesale, `env` imports only for names `memory` and `table`, and
everything else fails. -/
def validate_module_safety : List WasmImport → Except String Unit
  | [] => Except.ok ()
  | imp :: rest =>
    if imp.module = "wasi_snapshot_preview1" then
      validate_module_safety rest
    else if imp.module = "env" then
      if imp.name = "memory" ∨ imp.name = "table" then
        validate_module_safety rest
      else
        Except.error (String.append "Unsafe import: env." imp.name)
    else
      Except.error (String.append "Unauthorized import module: " imp.module)

/-- Claim-side acceptance predicate for one import, from the spec's
whitelist wording. -/
def importAccepted (imp : WasmImport) : Bool :=
  imp.module = "wasi_snapshot_preview1" ∨
    (imp.module = "env" ∧ (imp.name = "memory" ∨ imp.name = "table"))

/-! ## JSON values and Wasm values

`serde_json::Number` stores either a `u64` (non-negative integers), a
negative `i64`, or an `f64`. `Number.as_i64` succeeds on the first two forms
(on the first only when the value fits `i64`) and fails on floats.
Floats are carried as their raw IEEE-754 bit pattern (a `Nat` below 2 ^ 64);
the exact value semantics of floats is irrelevant to every property proved
here, only which conversions succeed matters. -/

inductive JNum where
  | posInt : Nat → JNum
  | negInt : Int → JNum
  | float : Nat → JNum
deriving DecidableEq, Repr

/-- `serde_json::Number::as_i64`. -/
def JNum.asI64 : JNum → Option Int
  | .posInt n => if n < 2 ^ 63 then some (n : Int) else none
  | .negInt i => some i
  | .float _ => none

inductive Json where
  | null : Json
  | bool : Bool → Json
  | num : JNum → Json
  | str : String → Json
  | arr : List Json → Json
deriving Repr

/-- Wasm value (`wasmtime::Val`); `i32`/`i64` carry the signed value, floats
their raw bit pattern, and `ref` stands for the remaining constructors
(v128 and references), which the marshaller rejects uniformly. -/
inductive Val where
  | i32 : Int → Val
  | i64 : Int → Val
  | f32 : Nat → Val
  | f64 : Nat → Val
  | ref : Val
deriving DecidableEq, Repr

instance : Inhabited Val := ⟨Val.i32 0⟩

inductive ValType where
  | i32 : ValType
  | i64 : ValType
  | f32 : ValType
  | f64 : ValType
  | other : ValType
deriving DecidableEq, Repr

/-- Rust's `as i32` on an `i64` value: two's-complement truncation to the
low 32 bits. -/
def toI32 (v : Int) : Int :=
  let m := v % 2 ^ 32
  if m < 2 ^ 31 then m else m - 2 ^ 32

/-- Exponent field of an `f32` bit pattern is all ones (NaN or infinity). -/
def f32IsNanOrInf (b : Nat) : Bool :=
  b / 2 ^ 23 % 2 ^ 8 = 255

/-- Exponent field of an `f64` bit pattern is all ones (NaN or infinity). -/
def f64IsNanOrInf (b : Nat) : Bool :=
  b / 2 ^ 52 % 2 ^ 11 = 2047

/-- Exact IEEE-754 widening of an `f32` bit pattern to the `f64` bit pattern
(Rust's `f32 as f64`). Finite values widen exactly; subnormals are
renormalised; NaN payloads are shifted into the wider fraction field. -/
def f32ToF64Bits (b : Nat) : Nat :=
  let sign := b / 2 ^ 31 % 2
  let e := b / 2 ^ 23 % 2 ^ 8
  let f := b % 2 ^ 23
  if e = 255 then
    sign * 2 ^ 63 + 2047 * 2 ^ 52 + f * 2 ^ 29
  else if e = 0 then
    if f = 0 then sign * 2 ^ 63
    else
      let t := f.log2
      sign * 2 ^ 63 + (t + 874) * 2 ^ 52 + (f - 2 ^ t) * 2 ^ (52 - t)
  else
    sign * 2 ^ 63 + (e + 896) * 2 ^ 52 + f * 2 ^ 29

/-- `f64` bit pattern of a non-negative integer, exact below 2 ^ 53 and with
a truncated (rather than round-to-nearest) mantissa above; the rounding mode
is immaterial to every property proved here. -/
def natToF64Bits (n : Nat) : Nat :=
  if n = 0 then 0
  else
    let t := n.log2
    if t ≤ 52 then (t + 1023) * 2 ^ 52 + (n - 2 ^ t) * 2 ^ (52 - t)
    else (t + 1023) * 2 ^ 52 + (n - 2 ^ t) / 2 ^ (t - 52)

/-- `serde_json::Number::as_f64` followed by `to_bits`: total on every
number form, as in the source. -/
def JNum.asF64Bits : JNum → Nat
  | .posInt n => natToF64Bits n
  | .negInt i => 2 ^ 63 + natToF64Bits i.natAbs
  | .float b => b

/-- Rust's `f64 as f32` narrowing on bit patterns, modelled to the precision
the claims need: NaN/infinity and overflow map to the all-ones exponent,
underflow to zero, and normal values keep a truncated mantissa. -/
def f64BitsToF32Bits (b : Nat) : Nat :=
  let sign := b / 2 ^ 63 % 2
  let e := b / 2 ^ 52 % 2 ^ 11
  let f := b % 2 ^ 52
  if e = 2047 then sign * 2 ^ 31 + 255 * 2 ^ 23 + f / 2 ^ 29
  else if e ≥ 1151 then sign * 2 ^ 31 + 255 * 2 ^ 23
  else if e ≤ 896 then sign * 2 ^ 31
  else sign * 2 ^ 31 + (e - 896) * 2 ^ 23 + f / 2 ^ 29

/-! ## Parameter marshalling (`json_to_wasm_params`, lines 308-336) -/

/-- One arm of the `match (json_param, wasm_type)` in `json_to_wasm_params`. -/
def json_val_to_wasm (p : Json) (t : ValType) : Except String Val :=
  match p, t with
  | .num n, .i32 =>
    match n.asI64 with
    | some v => Except.ok (Val.i32 (toI32 v))
    | none => Except.error "Invalid i32"
  | .num n, .i64 =>
    match n.asI64 with
    | some v => Except.ok (Val.i64 v)
    | none => Except.error "Invalid i64"
  | .num n, .f32 => Except.ok (Val.f32 (f64BitsToF32Bits n.asF64Bits))
  | .num n, .f64 => Except.ok (Val.f64 n.asF64Bits)
  | _, _ => Except.error "Unsupported parameter type combination"

/-- `json_to_wasm_params`: the params value must be a JSON array whose length
equals the declared arity; each element is converted against the declared
parameter type. -/
def json_to_wasm_params (json : Json) (param_types : List ValType) :
    Except String (List Val) :=
  match json with
  | .arr params_array =>
    if params_array.length ≠ param_types.length then
      Except.error "Parameter count mismatch"
    else
      (params_array.zip param_types).mapM fun pt => json_val_to_wasm pt.1 pt.2
  | _ => Except.error "Parameters must be an array"

/-! ## Result marshalling (`wasm_results_to_json` and `wasm_val_to_json`,
lines 338-363) -/

/-- `wasm_val_to_json`: integers become JSON numbers; floats go through
`serde_json::Number::from_f64`, which fails on NaN and infinities;
other value kinds are unsupported. -/
def wasm_val_to_json : Val → Except String Json
  | .i32 i => Except.ok (Json.num (if 0 ≤ i then JNum.posInt i.toNat else JNum.negInt i))
  | .i64 i => Except.ok (Json.num (if 0 ≤ i then JNum.posInt i.toNat else JNum.negInt i))
  | .f32 b =>
    if f64IsNanOrInf (f32ToF64Bits b) then Except.error "Invalid f32"
    else Except.ok (Json.num (JNum.float (f32ToF64Bits b)))
  | .f64 b =>
    if f64IsNanOrInf b then Except.error "Invalid f64"
    else Except.ok (Json.num (JNum.float b))
  | .ref => Except.error "Unsupported result type"

/-- `wasm_results_to_json`: a single result is returned bare, any other
length (including zero) becomes a JSON array. -/
def wasm_results_to_json (results : List Val) : Except String Json :=
  if results.length = 1 then
    wasm_val_to_json results[0]!
  else
    (results.mapM wasm_val_to_json).map Json.arr

/-- `execute_function_with_params`: marshal the parameters, invoke the
function, marshal the results. The engine's `func.call` (which fills a
result buffer of `result_types.length` values) is passed in as the oracle
`call`; `result_types` records arity only. -/
def execute_function_with_params (call : List Val → Except String (List Val))
    (param_types : List ValType) (result_types : List ValType) (params : Json) :
    Except String Json := do
  let param_values ← json_to_wasm_params params param_types
  let results ← call param_values
  let _ := result_types
  wasm_results_to_json results

/-! ## Executor memory accounting (`execute_plugin_safe`, lines 243-271)

`instance.get_memory(&mut store, "memory")` yields the exported linear
memory, if any; its size is read in pages before and after the call. The
two page counts observed for one invocation are modelled as an optional
pair (`none` when the module has no export named `memory`). -/

/-- `initial_memory`: page count before the call times 65536, or 0 when the
module exports no memory named `memory`. -/
def initial_memory (memory : Option (Nat × Nat)) : Nat :=
  match memory with
  | some m => m.1 * 65536
  | none => 0

/-- `final_memory`: page count after the call times 65536, or 0 when the
module exports no memory named `memory`. -/
def final_memory (memory : Option (Nat × Nat)) : Nat :=
  match memory with
  | some m => m.2 * 65536
  | none => 0

/-- The source's `final_memory - initial_memory` on `u64` operands:
an unchecked unsigned subtraction, which in release builds wraps modulo
2 ^ 64 (and panics in debug builds) when the subtrahend is larger. Both
arguments are `u64` values, i.e. below 2 ^ 64. -/
def memory_used_bytes (initial fin : Nat) : Nat :=
  (fin + 2 ^ 64 - initial) % 2 ^ 64

/-! ## Request gate (`handle_execute`, lines 126-184) -/

/-- `RuntimeConfig::default().max_instances`. -/
def default_max_instances : Nat := 10

/-- `ExecuteResponse`. -/
structure ExecuteResponse where
  success : Bool
  result : Option Json
  error : Option String
  execution_time_ms : Nat
  memory_used_bytes : Nat
  fuel_consumed : Nat
deriving Repr

/-- Mutable state observable across `handle_execute`: the `active_instances`
atomic together with the failure/success counters of the metrics registry
scraped by `/metrics`. Under the handle-returning `metrics` API this source
compiles against (`histogram!(..).record(..)` at line 156 only exists
there), a bare `counter!(name, labels)` statement — lines 135, 154, 160 and
172 — creates a `Counter` handle and drops it without incrementing, and
`main` installs no `metrics` recorder (it registers counters only in the
separate `prometheus` default registry, which the `metrics` macros never
touch). The handler therefore never updates any of these counters; they are
carried in the state so that theorems can state their invariance. -/
structure GateState where
  active_instances : Nat
  success_count : Nat
  failures_instance_limit : Nat
  failures_execution_error : Nat
  failures_timeout : Nat
deriving DecidableEq, Repr

/-- `warp::reply::json` always replies with HTTP status 200; the reply pairs
that status with the serialised body. -/
structure GateReply where
  status : Nat
  body : ExecuteResponse
deriving Repr

def reply_json (r : ExecuteResponse) : GateReply :=
  { status := 200, body := r }

/-- Effective timeout in seconds:
`req.timeout_seconds.unwrap_or(30).min(300)`. -/
def effective_timeout_secs (timeout_seconds : Option Nat) : Nat :=
  min (timeout_seconds.getD 30) 300

/-- Outcome of `timeout(execution_timeout, execute_plugin_safe(..)).await`:
the executor returned a response, the executor returned an error, or the
wall-clock timer fired first. -/
inductive ExecOutcome where
  | ok : ExecuteResponse → ExecOutcome
  | execError : String → ExecOutcome
  | timedOut : ExecOutcome

/-- The `match result` at the end of `handle_execute`, building the reply
body from the executor outcome; `eff_secs` is the effective timeout whose
`as_millis` stamps the timeout reply. -/
def handle_execute_result (eff_secs : Nat) : ExecOutcome → ExecuteResponse
  | .ok response => response
  | .execError e =>
    { success := false
      result := none
      error := some (String.append "Execution error: " e)
      execution_time_ms := 0
      memory_used_bytes := 0
      fuel_consumed := 0 }
  | .timedOut =>
    { success := false
      result := none
      error := some "Execution timed out"
      execution_time_ms := eff_secs * 1000
      memory_used_bytes := 0
      fuel_consumed := 0 }

/-- Effect on the registry of the bare `counter!` statement in each
`match result` arm (lines 154, 160, 172): under the handle-returning
`metrics` API with no recorder installed, each statement creates and drops
a handle, updating nothing — every arm leaves the state unchanged. -/
def record_outcome (s : GateState) : ExecOutcome → GateState
  | .ok _ => s
  | .execError _ => s
  | .timedOut => s

/-- `handle_execute` as a sequential state transformer: admission
(fetch-and-increment against `max_instances`, lines 131-144), then — only
when admitted — the timed executor run (whose outcome is the oracle
`outcome`), the decrement, the (no-op) counter statement and the reply.
The bare `counter!` statement in the rejection branch (line 135) likewise
updates nothing. The returned `Bool` is `true` exactly when the executor
was invoked. -/
def handle_execute (max_instances : Nat) (s : GateState)
    (timeout_seconds : Option Nat) (outcome : ExecOutcome) :
    GateState × GateReply × Bool :=
  let current_instances := s.active_instances
  let s1 := { s with active_instances := s.active_instances + 1 }
  if current_instances ≥ max_instances then
    let s2 := { s1 with active_instances := s1.active_instances - 1 }
    (s2, reply_json
      { success := false
        result := none
        error := some "Too many active instances"
        execution_time_ms := 0
        memory_used_bytes := 0
        fuel_consumed := 0 }, false)
  else
    let eff := effective_timeout_secs timeout_seconds
    let s2 := { s1 with active_instances := s1.active_instances - 1 }
    (record_outcome s2 outcome, reply_json (handle_execute_result eff outcome), true)

/-! ## Helper lemmas -/

theorem toI32_lb (v : Int) : -(2 ^ 31) ≤ toI32 v := by
  unfold toI32
  dsimp only
  have h0 : (0 : Int) ≤ v % 2 ^ 32 := Int.emod_nonneg v (by norm_num)
  have e31 : (2 : Int) ^ 31 = 2147483648 := by norm_num
  have e32 : (2 : Int) ^ 32 = 4294967296 := by norm_num
  split_ifs with h <;> omega

theorem toI32_ub (v : Int) : toI32 v < 2 ^ 31 := by
  unfold toI32
  dsimp only
  have h1 : v % 2 ^ 32 < 2 ^ 32 := Int.emod_lt_of_pos v (by norm_num)
  have e31 : (2 : Int) ^ 31 = 2147483648 := by norm_num
  have e32 : (2 : Int) ^ 32 = 4294967296 := by norm_num
  split_ifs with h <;> omega

/-! ## Claims -/

/-- Claim C1 (code bug): the source's only traversal defence is the
`contains("..")` substring test on the *canonical* path, which never fires
because canonicalization has already resolved every `..` segment, and no
base-directory prefix check exists. A relative `../..`-chain and an absolute
path both canonicalize to `/etc/passwd`, escape the base `/srv/modules`,
and are accepted by the loader, which then reads the file. -/
theorem c1_path_escape_not_rejected :
    (resolve_module_path ["srv", "modules"]
        { absolute := false, segs := ["..", "..", "etc", "passwd"] } =
          Except.ok ["etc", "passwd"] ∧
      pathInBase ["srv", "modules"] ["etc", "passwd"] = false) ∧
    (resolve_module_path ["srv", "modules"]
        { absolute := true, segs := ["etc", "passwd"] } =
          Except.ok ["etc", "passwd"] ∧
      pathInBase ["srv", "modules"] ["etc", "passwd"] = false) := by
  decide

/-- Claim C2: `validate_module_safety` accepts a module exactly when
every import is whitelisted — module name `wasi_snapshot_preview1` with any
item name, or module name `env` with item name `memory` or `table`; any
other import makes validation fail (so, by the `?` propagation in
`execute_plugin_safe`, the module is never instantiated). -/
theorem c2_import_whitelist (imports : List WasmImport) :
    validate_module_safety imports = Except.ok () ↔
      ∀ imp ∈ imports, importAccepted imp = true := by
  induction imports with
  | nil => simp [validate_module_safety]
  | cons imp rest ih =>
    by_cases h1 : imp.module = "wasi_snapshot_preview1"
    · simp [validate_module_safety, h1, ih, importAccepted]
    · by_cases h2 : imp.module = "env"
      · by_cases h3 : imp.name = "memory" ∨ imp.name = "table"
        · simp [validate_module_safety, h1, h2, h3, ih, importAccepted]
        · simp [validate_module_safety, h1, h2, h3, importAccepted]
      · simp [validate_module_safety, h1, h2, importAccepted]

theorem c2_import_whitelist_witness :
    validate_module_safety
        [{ module := "wasi_snapshot_preview1", name := "fd_write" },
         { module := "env", name := "memory" }] = Except.ok () ↔
      ∀ imp ∈ [({ module := "wasi_snapshot_preview1", name := "fd_write" } : WasmImport),
               { module := "env", name := "memory" }], importAccepted imp = true :=
  c2_import_whitelist
    [{ module := "wasi_snapshot_preview1", name := "fd_write" },
     { module := "env", name := "memory" }]

/-- Claim C3, counterexample: the JSON number 2147483648 = 2^31 does not fit
in signed 32-bit, yet `json_to_wasm_params` accepts it for an `i32` position
and produces the truncated value −2^31 instead of failing. -/
theorem c3_counterexample :
    json_to_wasm_params (Json.arr [Json.num (JNum.posInt 2147483648)])
        [ValType.i32] =
      Except.ok [Val.i32 (-2147483648)] := by
  decide

/-- Claim C3, amended: for an `i32` position the marshaller accepts exactly
the JSON numbers with an `i64` representation (`as_i64` succeeds), producing
the two's-complement truncation of that value — which differs from the value
whenever it lies outside signed 32-bit range — and fails only when `as_i64`
fails (floats and `u64` values above `i64::MAX`). -/
theorem c3_i32_marshalling (n : JNum) :
    (∀ v : Int, n.asI64 = some v →
      json_val_to_wasm (Json.num n) ValType.i32 = Except.ok (Val.i32 (toI32 v)) ∧
        ((v < -(2 ^ 31) ∨ 2 ^ 31 ≤ v) → toI32 v ≠ v)) ∧
    (n.asI64 = none →
      json_val_to_wasm (Json.num n) ValType.i32 = Except.error "Invalid i32") := by
  constructor
  · intro v h
    refine ⟨by simp [json_val_to_wasm, h], fun hout heq => ?_⟩
    have hlb := toI32_lb v
    have hub := toI32_ub v
    rw [heq] at hlb hub
    omega
  · intro h
    simp [json_val_to_wasm, h]

theorem c3_i32_marshalling_witness :
    json_val_to_wasm (Json.num (JNum.posInt 2147483649)) ValType.i32 =
        Except.ok (Val.i32 (toI32 2147483649)) ∧
      toI32 2147483649 ≠ 2147483649 := by
  have h := (c3_i32_marshalling (JNum.posInt 2147483649)).1 2147483649 (by decide)
  exact ⟨h.1, h.2 (by norm_num)⟩

/-- Claim C4, counterexample: a zero-length result vector is marshalled to
the empty JSON array, not to JSON `null`. -/
theorem c4_counterexample :
    wasm_results_to_json [] = Except.ok (Json.arr []) ∧
      Json.arr [] ≠ Json.null := by
  exact ⟨rfl, fun h => Json.noConfusion h⟩

/-- Claim C4, amended: a one-element result vector is marshalled to the bare
converted value, and a vector of any other length — including zero — to a
JSON array of the converted values preserving order. -/
theorem c4_results_marshalling (results : List Val) (js : List Json)
    (h : results.mapM wasm_val_to_json = Except.ok js) :
    (results.length ≠ 1 →
      wasm_results_to_json results = Except.ok (Json.arr js)) ∧
    (∀ v, results = [v] →
      wasm_results_to_json results = wasm_val_to_json v) := by
  constructor
  · intro hlen
    unfold wasm_results_to_json
    rw [if_neg hlen, h]
    rfl
  · rintro v rfl
    simp [wasm_results_to_json]

theorem c4_results_marshalling_witness :
    wasm_results_to_json [Val.i32 2, Val.i64 3] =
      Except.ok (Json.arr [Json.num (JNum.posInt 2), Json.num (JNum.posInt 3)]) := by
  have h := c4_results_marshalling [Val.i32 2, Val.i64 3]
    [Json.num (JNum.posInt 2), Json.num (JNum.posInt 3)] (by rfl)
  exact h.1 (by decide)

/-- Claim C5, counterexample: a request with `timeout_seconds = 0` yields an
effective timeout of 0 seconds — the source applies no lower clamp, so the
claimed bound of at least 1 second fails. -/
theorem c5_counterexample :
    effective_timeout_secs (some 0) = 0 ∧
      ¬ 1 ≤ effective_timeout_secs (some 0) := by
  decide

/-- Claim C5, amended: the effective timeout is the requested value when
present (else the default 30), capped above at 300 seconds, with no lower
clamp. -/
theorem c5_effective_timeout :
    (∀ v, effective_timeout_secs (some v) = min v 300) ∧
      effective_timeout_secs none = 30 ∧
      ∀ t, effective_timeout_secs t ≤ 300 := by
  refine ⟨fun v => rfl, rfl, fun t => ?_⟩
  exact min_le_right _ _

/-- Claim C6, counterexample: the source computes `final - initial` as an
unchecked unsigned subtraction; if the final size were smaller than the
initial one the value would wrap around modulo 2^64 instead of clamping
to 0. -/
theorem c6_counterexample :
    memory_used_bytes 65536 0 = 2 ^ 64 - 65536 ∧
      memory_used_bytes 65536 0 ≠ 0 := by
  decide

/-- Claim C6, amended: whenever the final linear-memory size is at least the
initial one — which the engine guarantees, since linear memories never
shrink — `memory_used_bytes` equals the exact difference; no clamping
exists for the opposite case. -/
theorem c6_memory_delta (initial fin : Nat) (h1 : initial ≤ fin)
    (h2 : fin < 2 ^ 64) :
    memory_used_bytes initial fin = fin - initial := by
  unfold memory_used_bytes
  have e : fin + 2 ^ 64 - initial = (fin - initial) + 2 ^ 64 := by omega
  rw [e, Nat.add_mod_right]
  exact Nat.mod_eq_of_lt (by omega)

theorem c6_memory_delta_witness : memory_used_bytes 65536 196608 = 131072 := by
  have h := c6_memory_delta 65536 196608 (by norm_num) (by norm_num)
  rw [h]

/-- Claim C7, counterexample: a request hitting the instance cap (ten
active instances against `max_instances = 10`) leaves the `instance_limit`
failure counter at 0, not 1 — the bare `counter!` statement at line 135
increments nothing — refuting the claimed counter increment. -/
theorem c7_counterexample :
    (handle_execute 10 ⟨10, 0, 0, 0, 0⟩ none
        ExecOutcome.timedOut).1.failures_instance_limit = 0 ∧
    (handle_execute 10 ⟨10, 0, 0, 0, 0⟩ none
        ExecOutcome.timedOut).1.failures_instance_limit ≠ 0 + 1 := by
  decide

/-- Claim C7, amended: when the pre-increment value of `active_instances`
is at least `max_instances`, the handler restores the counter to its
previous value (net change zero) and replies with HTTP status 200 and a
body with `success = false` and `error = "Too many active instances"`,
without invoking the executor (the returned flag is `false` and the outcome
oracle is never consulted) — but the `instance_limit` failure counter is
not incremented: the bare `counter!` statement creates and drops a handle
with no recorder installed, so the whole gate state is returned unchanged. -/
theorem c7_instance_limit (max_instances : Nat) (s : GateState)
    (t : Option Nat) (o : ExecOutcome)
    (h : s.active_instances ≥ max_instances) :
    handle_execute max_instances s t o =
      (s,
        { status := 200
          body :=
            { success := false
              result := none
              error := some "Too many active instances"
              execution_time_ms := 0
              memory_used_bytes := 0
              fuel_consumed := 0 } },
        false) := by
  unfold handle_execute reply_json
  simp [h]

theorem c7_instance_limit_witness :
    handle_execute 10 ⟨10, 0, 0, 0, 0⟩ none ExecOutcome.timedOut =
      (⟨10, 0, 0, 0, 0⟩,
        { status := 200
          body :=
            { success := false
              result := none
              error := some "Too many active instances"
              execution_time_ms := 0
              memory_used_bytes := 0
              fuel_consumed := 0 } },
        false) :=
  c7_instance_limit 10 ⟨10, 0, 0, 0, 0⟩ none ExecOutcome.timedOut (by decide)

/-- Claim C8: marshalling fails with the `bad_params` errors of the source
("Parameters must be an array" / "Parameter count mismatch") whenever the
params value is not a JSON array, or is an array of the wrong length; in
both cases the result is the same for every `call` oracle, so the Wasm
function is never invoked. -/
theorem c8_bad_params (call : List Val → Except String (List Val))
    (param_types result_types : List ValType) (params : Json) :
    ((∀ a, params ≠ Json.arr a) →
      execute_function_with_params call param_types result_types params =
        Except.error "Parameters must be an array") ∧
    (∀ a, params = Json.arr a → a.length ≠ param_types.length →
      execute_function_with_params call param_types result_types params =
        Except.error "Parameter count mismatch") := by
  constructor
  · intro h
    cases params with
    | arr a => exact absurd rfl (h a)
    | null => rfl
    | bool b => rfl
    | num n => rfl
    | str s => rfl
  · rintro a rfl hlen
    have hj : json_to_wasm_params (Json.arr a) param_types =
        Except.error "Parameter count mismatch" := by
      simp only [json_to_wasm_params]
      rw [if_pos hlen]
    unfold execute_function_with_params
    rw [hj]
    rfl

theorem c8_bad_params_witness :
    execute_function_with_params (fun _ => Except.ok []) [ValType.i32] []
        (Json.num (JNum.posInt 1)) =
      Except.error "Parameters must be an array" ∧
    execute_function_with_params (fun _ => Except.ok []) [ValType.i32] []
        (Json.arr []) =
      Except.error "Parameter count mismatch" := by
  constructor
  · exact (c8_bad_params (fun _ => Except.ok []) [ValType.i32] []
      (Json.num (JNum.posInt 1))).1 (fun a h => Json.noConfusion h)
  · exact (c8_bad_params (fun _ => Except.ok []) [ValType.i32] []
      (Json.arr [])).2 [] rfl (by decide)

/-- Claim C9: the executor-error reply of `handle_execute` zeroes
`memory_used_bytes`, `fuel_consumed` and `execution_time_ms`, and the
timeout reply zeroes `memory_used_bytes` and `fuel_consumed`, whatever the
invocation actually consumed. -/
theorem c9_failure_replies_zeroed (eff_secs : Nat) (e : String) :
    (handle_execute_result eff_secs (ExecOutcome.execError e)).memory_used_bytes
        = 0 ∧
    (handle_execute_result eff_secs (ExecOutcome.execError e)).fuel_consumed
        = 0 ∧
    (handle_execute_result eff_secs (ExecOutcome.execError e)).execution_time_ms
        = 0 ∧
    (handle_execute_result eff_secs ExecOutcome.timedOut).memory_used_bytes
        = 0 ∧
    (handle_execute_result eff_secs ExecOutcome.timedOut).fuel_consumed = 0 :=
  ⟨rfl, rfl, rfl, rfl, rfl⟩

/-- Claim C10: when the module exports no linear memory under the name
`memory`, both memory measurements of `execute_plugin_safe` are 0, and so is
the reported `memory_used_bytes`. -/
theorem c10_no_memory_export (memory : Option (Nat × Nat))
    (h : memory = none) :
    initial_memory memory = 0 ∧ final_memory memory = 0 ∧
      memory_used_bytes (initial_memory memory) (final_memory memory) = 0 := by
  subst h
  exact ⟨rfl, rfl, by decide⟩

theorem c10_no_memory_export_witness :
    initial_memory none = 0 ∧ final_memory none = 0 ∧
      memory_used_bytes (initial_memory none) (final_memory none) = 0 :=
  c10_no_memory_export none rfl

end ExtRuntime
